import Mathlib

/-!
Verification of the receipt formatting and totals engine of the
`receipts_archive` service (`app/routes/receipt.py`).

Monetary values are modelled in fixed-point cents (`ℤ` scaled by 100), the
exact decimal domain in which the engine's `%.2f` rendering is defined; a
price of `25.50` is the integer `2550`.  Quantities (`ProductToReceipt.count`)
are integers exactly as in the source model.  Python string alignment
(`<`, `>`, `^` format specifiers) counts characters, as does `String.length`
here, so fixed-width layout transfers verbatim.
-/

set_option maxRecDepth 100000

namespace ReceiptsArchive

/-- Width constant `RECEIPT_SIZE = 32` from `get_formatted_receipt`. -/
def RECEIPT_SIZE : Nat := 32

/-- A run of `n` copies of the character `c` (Python `c * n`). -/
def repChar (c : Char) (n : Nat) : String :=
  String.mk (List.replicate n c)

/-- A run of `n` spaces. -/
def spaces (n : Nat) : String :=
  repChar ' ' n

/-- Python format alignment `<w`: pad on the right with spaces up to width
`w`; a string already at least `w` characters long is left unchanged. -/
def ljust (w : Nat) (s : String) : String :=
  s ++ spaces (w - s.length)

/-- Python format alignment `>w`: pad on the left with spaces up to width
`w`; a string already at least `w` characters long is left unchanged. -/
def rjust (w : Nat) (s : String) : String :=
  spaces (w - s.length) ++ s

/-- Python format alignment `^w`: centre in width `w`, the extra space (for
odd padding) going to the right; a string of at least `w` characters is left
unchanged. -/
def center (w : Nat) (s : String) : String :=
  spaces ((w - s.length) / 2) ++ s ++ spaces ((w - s.length) - (w - s.length) / 2)

/-- Python `%.2f` on a fixed-point cents value: sign, integer part, `.`,
and exactly two decimal digits. -/
def fmtCents (c : ℤ) : String :=
  let m := c.natAbs
  (if c < 0 then "-" else "")
    ++ Nat.repr (m / 100) ++ "."
    ++ (if m % 100 < 10 then "0" ++ Nat.repr (m % 100) else Nat.repr (m % 100))

/-- Zero-pad a (two-digit) numeric datetime component, as `strftime`
does for `%d`, `%m`, `%H`, `%M`. -/
def pad2 (n : Nat) : String :=
  if n < 10 then "0" ++ Nat.repr n else Nat.repr n

/-- Timestamp of a receipt (`Receipt.created_at`, a Python `datetime`). -/
structure DateTime where
  year : Nat
  month : Nat
  day : Nat
  hour : Nat
  minute : Nat
deriving DecidableEq

/-- The format `strftime("%d.%m.%Y %H:%M")` used on `created_at`. -/
def DateTime.strftimeDmyHm (t : DateTime) : String :=
  pad2 t.day ++ "." ++ pad2 t.month ++ "." ++ Nat.repr t.year
    ++ " " ++ pad2 t.hour ++ ":" ++ pad2 t.minute

/-- Payment type enum from `app/models.py` (`PaymentType`). -/
inductive PaymentType where
  | cash
  | cashless
deriving DecidableEq

/-- The `.value` of the payment enum: its lowercase textual form. -/
def PaymentType.value : PaymentType → String
  | .cash => "cash"
  | .cashless => "cashless"

/-- Quantity type enum from `app/models.py` (`QuantityType`). -/
inductive QuantityType where
  | items
  | kilograms
  | liters
deriving DecidableEq

/-- `Product` table row (`app/models.py`); `price` in fixed-point cents. -/
structure Product where
  id : ℤ
  name : String
  price : ℤ
  quantity_type : QuantityType
deriving DecidableEq

/-- `ProductToReceipt` association row (`app/models.py`). -/
structure ProductToReceipt where
  product_id : ℤ
  receipt_id : ℤ
  count : ℤ
deriving DecidableEq

/-- `Receipt` table row (`app/models.py`); `amount` in fixed-point cents.
Note the model stores no total: totals are always recomputed from the
line items. -/
structure Receipt where
  id : ℤ
  user_id : ℤ
  created_at : DateTime
  payment_type : PaymentType
  amount : ℤ
  shop_name : String
deriving DecidableEq

/-- The running total accumulated in the product loop of
`get_formatted_receipt` (`total = 0; for ...: total += subtotal`). -/
def receiptTotal (products : List (Product × ProductToReceipt)) : ℤ :=
  products.foldl (fun acc pp => acc + pp.1.price * pp.2.count) 0

/-- The three lines appended per product by the loop in
`get_formatted_receipt`: the quantity line (`"{count:.2f} x {price:.2f}"`
left-justified to width 32), the name/subtotal line (name left in width
`32 − 12`, subtotal right in width 12), and a `-`-rule. -/
def itemBlock (pp : Product × ProductToReceipt) : List String :=
  [ ljust RECEIPT_SIZE (fmtCents (100 * pp.2.count) ++ " x " ++ fmtCents pp.1.price),
    ljust (RECEIPT_SIZE - 12) pp.1.name ++ rjust 12 (fmtCents (pp.1.price * pp.2.count)),
    repChar '-' RECEIPT_SIZE ]

/-- The list `lines` built by `get_formatted_receipt` just before joining:
header (centred shop name, `=`-rule), the per-product blocks, then an
unconditional `lines.pop()` (modelled by `dropLast`), then the totals
block, `=`-rule, centred timestamp and centred caption. -/
def renderLines (receipt : Receipt) (products : List (Product × ProductToReceipt)) :
    List String :=
  ([ center RECEIPT_SIZE receipt.shop_name, repChar '=' RECEIPT_SIZE ]
      ++ (products.map itemBlock).flatten).dropLast
    ++ [ repChar '=' RECEIPT_SIZE,
         "СУМА" ++ rjust (RECEIPT_SIZE - 4) (fmtCents (receiptTotal products)),
         ljust (RECEIPT_SIZE - 22) receipt.payment_type.value
           ++ rjust 22 (fmtCents receipt.amount),
         "Решта" ++ rjust (RECEIPT_SIZE - 5) (fmtCents (receipt.amount - receiptTotal products)),
         repChar '=' RECEIPT_SIZE,
         center RECEIPT_SIZE receipt.created_at.strftimeDmyHm,
         center RECEIPT_SIZE "Дякуємо за покупку!" ]

/-- The return value `"\n".join(lines)` of `get_formatted_receipt`. -/
def renderText (receipt : Receipt) (products : List (Product × ProductToReceipt)) :
    String :=
  String.intercalate "\n" (renderLines receipt products)

/-- One entry of the `products` list in the dict built by
`format_receipt_response`. -/
structure ProductLine where
  name : String
  price : ℤ
  quantity : ℤ
  total : ℤ
deriving DecidableEq

/-- The nested `payment` dict of `format_receipt_response`. -/
structure Payment where
  type : String
  amount : ℤ
deriving DecidableEq

/-- The dict returned by `format_receipt_response`. -/
structure ReceiptResponse where
  id : ℤ
  products : List ProductLine
  payment : Payment
  total : ℤ
  rest : ℤ
  created_at : DateTime
deriving DecidableEq

/-- The pure part of `format_receipt_response`: given the receipt row and
the joined `(Product, ProductToReceipt)` pairs, compute the total as
`sum(product.price * ptr.count for ...)` and build the response dict. -/
def format_receipt_response (db_receipt : Receipt)
    (products : List (Product × ProductToReceipt)) : ReceiptResponse :=
  let total := products.foldl (fun acc pp => acc + pp.1.price * pp.2.count) 0
  { id := db_receipt.id,
    products := products.map (fun pp =>
      { name := pp.1.name, price := pp.1.price, quantity := pp.2.count,
        total := pp.1.price * pp.2.count }),
    payment := { type := db_receipt.payment_type.value, amount := db_receipt.amount },
    total := total,
    rest := db_receipt.amount - total,
    created_at := db_receipt.created_at }

/-- HTTP error raised with `raise HTTPException(status_code, detail)`. -/
structure HTTPError where
  status_code : Nat
  detail : String
deriving DecidableEq

/-- The storage collaborator as seen by the `/receipts/public/{receipt_id}`
route: primary-key lookup of a receipt (`session.get`) and the join query
returning the receipt's `(Product, ProductToReceipt)` pairs. -/
structure Session where
  getReceipt : ℤ → Option Receipt
  productsFor : ℤ → List (Product × ProductToReceipt)

/-- The route `GET /receipts/public/{receipt_id}`: 404 when the receipt
does not exist, otherwise the rendered text. -/
def get_formatted_receipt (session : Session) (receipt_id : ℤ) :
    Except HTTPError String :=
  match session.getReceipt receipt_id with
  | none => .error { status_code := 404, detail := "Receipt not found" }
  | some receipt => .ok (renderText receipt (session.productsFor receipt_id))

/-- Reference receipt from the spec scenario and `test_get_formatted_receipt`. -/
def referenceReceipt : Receipt :=
  { id := 1, user_id := 1,
    created_at := { year := 2023, month := 1, day := 1, hour := 12, minute := 0 },
    payment_type := .cash, amount := 10000,
    shop_name := "ФОП Джонсонюк Борис" }

/-- Reference line items from the spec scenario: Test Product 1 at 25.50 × 2
and Test Product 2 at 15.75 × 1. -/
def referenceProducts : List (Product × ProductToReceipt) :=
  [ ({ id := 1, name := "Test Product 1", price := 2550, quantity_type := .items },
     { product_id := 1, receipt_id := 1, count := 2 }),
    ({ id := 2, name := "Test Product 2", price := 1575, quantity_type := .items },
     { product_id := 2, receipt_id := 1, count := 1 }) ]

/-- Length of a character run. -/
theorem length_repChar (c : Char) (n : Nat) : (repChar c n).length = n := by
  simp [repChar, String.length]

/-- Length of a space run. -/
theorem length_spaces (n : Nat) : (spaces n).length = n := by
  simp [spaces, length_repChar]

/-- Left-justifying a string that fits yields exactly the field width. -/
theorem length_ljust (w : Nat) (s : String) (h : s.length ≤ w) :
    (ljust w s).length = w := by
  simp [ljust, String.length_append, length_spaces]
  omega

/-- Right-justifying a string that fits yields exactly the field width. -/
theorem length_rjust (w : Nat) (s : String) (h : s.length ≤ w) :
    (rjust w s).length = w := by
  simp [rjust, String.length_append, length_spaces]
  omega

/-- Centring a string that fits yields exactly the field width. -/
theorem length_center (w : Nat) (s : String) (h : s.length ≤ w) :
    (center w s).length = w := by
  simp [center, String.length_append, length_spaces]
  omega

/-- Folding additions of `f` over a list from `a` is `a` plus the sum of
the mapped list. -/
theorem foldl_add_map_sum {α : Type} (f : α → ℤ) :
    ∀ (l : List α) (a : ℤ), l.foldl (fun acc x => acc + f x) a = a + (l.map f).sum := by
  intro l
  induction l with
  | nil => simp
  | cons x xs ih =>
    intro a
    simp only [List.foldl_cons, List.map_cons, List.sum_cons, ih]
    ring

/-- The loop-accumulated total is the sum of per-line subtotals. -/
theorem receiptTotal_eq_sum (products : List (Product × ProductToReceipt)) :
    receiptTotal products = (products.map fun pp => pp.1.price * pp.2.count).sum := by
  simpa [receiptTotal] using foldl_add_map_sum (fun pp : Product × ProductToReceipt =>
    pp.1.price * pp.2.count) products 0

/-- The payment enum's textual value is at most `32 − 22 = 10` characters
(`"cash"` has 4, `"cashless"` 8), so the payment line needs no extra
hypothesis to stay in layout. -/
theorem paymentType_value_length (pt : PaymentType) : pt.value.length ≤ 10 := by
  cases pt <;> decide

/-- True when the list of lines has two consecutive `=`-rules of width 32. -/
def hasConsecutiveEqRules : List String → Bool
  | a :: b :: rest =>
      (a == repChar '=' RECEIPT_SIZE && b == repChar '=' RECEIPT_SIZE)
        || hasConsecutiveEqRules (b :: rest)
  | _ => false

/-- A receipt with no line items, for the empty-items edge case. -/
def emptyItemsReceipt : Receipt :=
  { id := 2, user_id := 1,
    created_at := { year := 2023, month := 5, day := 10, hour := 9, minute := 30 },
    payment_type := .cash, amount := 5000, shop_name := "Shop" }

/-- The reference receipt paid with less cash than the total. -/
def underpaidReceipt : Receipt :=
  { referenceReceipt with amount := 1000 }

/-- C1: the reference scenario document has 14 lines, not 15 as claimed:
the claimed line count is refuted at the reference input itself. -/
theorem C1_reference_line_count_cex :
    (renderLines referenceReceipt referenceProducts).length = 14
    ∧ ¬ (renderLines referenceReceipt referenceProducts).length = 15 := by
  decide

/-- C1 (amended: the reference document has 14 lines): on the reference
receipt the computed total is 66.75, the rest is 33.25, and the rendered
text is byte-for-byte the document of the spec's reference scenario,
lines joined by single newlines with no trailing newline. -/
theorem C1_reference_scenario :
    receiptTotal referenceProducts = 6675
    ∧ fmtCents (receiptTotal referenceProducts) = "66.75"
    ∧ referenceReceipt.amount - receiptTotal referenceProducts = 3325
    ∧ fmtCents (referenceReceipt.amount - receiptTotal referenceProducts) = "33.25"
    ∧ renderText referenceReceipt referenceProducts =
        "      ФОП Джонсонюк Борис       \n================================\n2.00 x 25.50                    \nTest Product 1             51.00\n--------------------------------\n1.00 x 15.75                    \nTest Product 2             15.75\n================================\nСУМА                       66.75\ncash                      100.00\nРешта                      33.25\n================================\n        01.01.2023 12:00        \n      Дякуємо за покупку!       " := by
  decide

/-- C2: at a concrete empty-items receipt the unconditional `lines.pop()`
removes the shop-name line's `=`-rule, so the output has a single `=`-rule
before the totals block and does not contain two consecutive `=`-rules —
the claimed double separator is refuted. -/
theorem C2_empty_pops_header_rule_cex :
    renderLines emptyItemsReceipt [] =
      [ "              Shop              ",
        "================================",
        "СУМА                        0.00",
        "cash                       50.00",
        "Решта                      50.00",
        "================================",
        "        10.05.2023 09:30        ",
        "      Дякуємо за покупку!       " ]
    ∧ hasConsecutiveEqRules (renderLines emptyItemsReceipt []) = false := by
  decide

/-- C2 (amended: with no items the pop is not a no-op — it removes the
shop-name line's `=` separator): for every receipt with an empty item
list the total is 0, the rest equals the amount tendered, and the
document has no item blocks, running shop-name line, one `=`-rule, then
the totals block directly; there is no doubled separator. -/
theorem C2_empty_items (r : Receipt) :
    receiptTotal [] = 0
    ∧ r.amount - receiptTotal [] = r.amount
    ∧ renderLines r [] =
        [ center RECEIPT_SIZE r.shop_name,
          repChar '=' RECEIPT_SIZE,
          "СУМА" ++ rjust (RECEIPT_SIZE - 4) (fmtCents 0),
          ljust (RECEIPT_SIZE - 22) r.payment_type.value ++ rjust 22 (fmtCents r.amount),
          "Решта" ++ rjust (RECEIPT_SIZE - 5) (fmtCents r.amount),
          repChar '=' RECEIPT_SIZE,
          center RECEIPT_SIZE r.created_at.strftimeDmyHm,
          center RECEIPT_SIZE "Дякуємо за покупку!" ] := by
  refine ⟨rfl, by simp [receiptTotal], ?_⟩
  simp [renderLines, receiptTotal]

/-- C3: the total is the sum over the line items of price × quantity,
both in the text renderer's loop accumulator and in the summary built by
`format_receipt_response`, and it is 0 for the empty list; the `Receipt`
model stores no total field, so it is recomputed from the items. -/
theorem C3_total_is_sum_of_subtotals (r : Receipt)
    (ps : List (Product × ProductToReceipt)) :
    receiptTotal ps = (ps.map fun pp => pp.1.price * pp.2.count).sum
    ∧ (format_receipt_response r ps).total
        = (ps.map fun pp => pp.1.price * pp.2.count).sum
    ∧ receiptTotal [] = 0 := by
  refine ⟨receiptTotal_eq_sum ps, ?_, rfl⟩
  simpa [format_receipt_response] using
    foldl_add_map_sum (fun pp : Product × ProductToReceipt => pp.1.price * pp.2.count) ps 0

/-- C4: the rest is the amount tendered minus the total with no clamping:
the summary's `rest` field is exactly `amount − total`, the rendered
`Решта` line carries exactly that value, and when the amount tendered is
smaller than the total the rest is negative. -/
theorem C4_rest_unclamped (r : Receipt) (ps : List (Product × ProductToReceipt)) :
    (format_receipt_response r ps).rest = r.amount - (format_receipt_response r ps).total
    ∧ ("Решта" ++ rjust (RECEIPT_SIZE - 5) (fmtCents (r.amount - receiptTotal ps)))
        ∈ renderLines r ps
    ∧ (r.amount < receiptTotal ps → (format_receipt_response r ps).rest < 0) := by
  refine ⟨rfl, ?_, ?_⟩
  · unfold renderLines
    exact List.mem_append_right _ (by simp)
  · intro h
    have hrest : (format_receipt_response r ps).rest = r.amount - receiptTotal ps := rfl
    omega

/-- Witness for C4 at the underpaid reference receipt: the total 66.75
exceeds the 10.00 tendered and the computed rest is negative. -/
theorem C4_rest_unclamped_witness :
    underpaidReceipt.amount < receiptTotal referenceProducts
    ∧ (format_receipt_response underpaidReceipt referenceProducts).rest < 0 :=
  ⟨by decide, (C4_rest_unclamped underpaidReceipt referenceProducts).2.2 (by decide)⟩

/-- The reference products in the opposite order. -/
def referenceProductsSwapped : List (Product × ProductToReceipt) :=
  [ ({ id := 2, name := "Test Product 2", price := 1575, quantity_type := .items },
     { product_id := 2, receipt_id := 1, count := 1 }),
    ({ id := 1, name := "Test Product 1", price := 2550, quantity_type := .items },
     { product_id := 1, receipt_id := 1, count := 2 }) ]

/-- C6: the computed total is invariant under permutation of the line
items: any reordering of the `(Product, ProductToReceipt)` pairs yields
the same numeric total. -/
theorem C6_total_perm_invariant (ps qs : List (Product × ProductToReceipt))
    (h : ps.Perm qs) : receiptTotal ps = receiptTotal qs := by
  rw [receiptTotal_eq_sum, receiptTotal_eq_sum]
  exact (h.map _).sum_eq

/-- Witness for C6: the two reference items swapped are a permutation and
give the same total. -/
theorem C6_total_perm_invariant_witness :
    referenceProducts.Perm referenceProductsSwapped
    ∧ receiptTotal referenceProducts = receiptTotal referenceProductsSwapped := by
  have h : referenceProducts.Perm referenceProductsSwapped := List.Perm.swap _ _ _
  exact ⟨h, C6_total_perm_invariant referenceProducts referenceProductsSwapped h⟩

/-- A storage collaborator holding only the reference receipt, under id 1. -/
def testSession : Session :=
  { getReceipt := fun i => if i = 1 then some referenceReceipt else none,
    productsFor := fun _ => referenceProducts }

/-- C7: when the receipt lookup resolves to nothing the route returns the
404 `Receipt not found` error and never a document, and when it resolves
to a receipt the route returns the rendered document with no other
failure state. -/
theorem C7_not_found_vs_ok (s : Session) (receipt_id : ℤ) :
    (s.getReceipt receipt_id = none →
      get_formatted_receipt s receipt_id
        = .error { status_code := 404, detail := "Receipt not found" })
    ∧ (∀ receipt, s.getReceipt receipt_id = some receipt →
      get_formatted_receipt s receipt_id
        = .ok (renderText receipt (s.productsFor receipt_id))) := by
  constructor
  · intro h
    simp [get_formatted_receipt, h]
  · intro receipt h
    simp [get_formatted_receipt, h]

/-- Witness for C7: id 999 is absent and yields the 404 error; id 1 is
present and yields the rendered document. -/
theorem C7_not_found_vs_ok_witness :
    testSession.getReceipt 999 = none
    ∧ get_formatted_receipt testSession 999
        = .error { status_code := 404, detail := "Receipt not found" }
    ∧ testSession.getReceipt 1 = some referenceReceipt
    ∧ get_formatted_receipt testSession 1
        = .ok (renderText referenceReceipt (testSession.productsFor 1)) :=
  ⟨rfl, (C7_not_found_vs_ok testSession 999).1 rfl, rfl,
    (C7_not_found_vs_ok testSession 1).2 referenceReceipt rfl⟩

/-- C8: the renderer is deterministic — two invocations on equal inputs
produce identical output; being a pure function of its two arguments it
reads nothing else and mutates nothing. -/
theorem C8_renderText_deterministic (r₁ r₂ : Receipt)
    (ps₁ ps₂ : List (Product × ProductToReceipt))
    (h₁ : r₁ = r₂) (h₂ : ps₁ = ps₂) :
    renderText r₁ ps₁ = renderText r₂ ps₂ := by
  subst h₁
  subst h₂
  rfl

/-- Witness for C8 at the reference summary. -/
theorem C8_renderText_deterministic_witness :
    referenceReceipt = referenceReceipt
    ∧ referenceProducts = referenceProducts
    ∧ renderText referenceReceipt referenceProducts
        = renderText referenceReceipt referenceProducts :=
  ⟨rfl, rfl,
    C8_renderText_deterministic referenceReceipt referenceReceipt
      referenceProducts referenceProducts rfl rfl⟩

/-- C10: in the summary the top-level total equals the sum of the
per-product `total` fields of the breakdown, each per-product `total` is
that product's price × quantity, and the empty receipt has an empty
breakdown with total 0 — the breakdown and the aggregate cannot disagree. -/
theorem C10_breakdown_agrees_with_total (r : Receipt)
    (ps : List (Product × ProductToReceipt)) :
    (format_receipt_response r ps).total
      = ((format_receipt_response r ps).products.map fun e => e.total).sum
    ∧ (∀ e ∈ (format_receipt_response r ps).products, e.total = e.price * e.quantity)
    ∧ (format_receipt_response r []).products = []
    ∧ (format_receipt_response r []).total = 0 := by
  refine ⟨?_, ?_, rfl, rfl⟩
  · simp only [format_receipt_response, List.map_map]
    simpa [Function.comp] using
      foldl_add_map_sum (fun pp : Product × ProductToReceipt => pp.1.price * pp.2.count) ps 0
  · intro e he
    simp only [format_receipt_response, List.mem_map] at he
    obtain ⟨pp, _, rfl⟩ := he
    rfl

/-- Witness for C10: the first breakdown entry of the reference summary
has total 51.00 = 25.50 × 2. -/
theorem C10_breakdown_agrees_with_total_witness :
    ({ name := "Test Product 1", price := 2550, quantity := 2, total := 5100 } : ProductLine)
      ∈ (format_receipt_response referenceReceipt referenceProducts).products
    ∧ (5100 : ℤ) = 2550 * 2 :=
  ⟨by decide,
    (C10_breakdown_agrees_with_total referenceReceipt referenceProducts).2.1
      { name := "Test Product 1", price := 2550, quantity := 2, total := 5100 }
      (by decide)⟩

/-- Quantity line of an item block as the spec's step 3a words it:
`"<quantity %.2f> x <unitPrice %.2f>"` padded with trailing spaces to 32. -/
def specQtyLine (pp : Product × ProductToReceipt) : String :=
  ljust 32 (fmtCents (100 * pp.2.count) ++ " x " ++ fmtCents pp.1.price)

/-- Name/subtotal line of an item block as the spec's step 3b words it:
name left-justified in width `32 − 12`, subtotal right-justified in 12. -/
def specNameLine (pp : Product × ProductToReceipt) : String :=
  ljust 20 pp.1.name ++ rjust 12 (fmtCents (pp.1.price * pp.2.count))

/-- The code's per-item block is the spec's two lines plus a `-`-rule. -/
theorem itemBlock_eq (pp : Product × ProductToReceipt) :
    itemBlock pp = [specQtyLine pp, specNameLine pp, repChar '-' RECEIPT_SIZE] := rfl

/-- Unfolding of `List.intercalate` on a list of two or more chunks. -/
theorem intercalate_cons₂ {α : Type} (s x y : List α) (zs : List (List α)) :
    List.intercalate s (x :: y :: zs) = x ++ s ++ List.intercalate s (y :: zs) := by
  simp [List.intercalate, List.intersperse_cons_cons, List.flatten_cons]

/-- The flattened item blocks of a non-empty item list are non-empty. -/
theorem flatten_itemBlocks_ne_nil (pp : Product × ProductToReceipt)
    (rest : List (Product × ProductToReceipt)) :
    ((pp :: rest).map itemBlock).flatten ≠ [] := by
  simp [itemBlock]

/-- Dropping the final `-`-rule from the concatenated item blocks yields
exactly the blocks with a `-`-rule between consecutive blocks and none at
the end. -/
theorem blocks_dropLast_eq_intercalate :
    ∀ (ps : List (Product × ProductToReceipt)), ps ≠ [] →
      ((ps.map itemBlock).flatten).dropLast
        = List.intercalate [repChar '-' RECEIPT_SIZE]
            (ps.map fun pp => [specQtyLine pp, specNameLine pp]) := by
  intro ps
  induction ps with
  | nil => intro h; exact absurd rfl h
  | cons pp rest ih =>
    intro _
    cases rest with
    | nil => rfl
    | cons pp₂ rest₂ =>
      rw [List.map_cons, List.flatten_cons,
        List.dropLast_append_of_ne_nil _ (flatten_itemBlocks_ne_nil pp₂ rest₂),
        ih (by simp)]
      simp only [List.map_cons]
      rw [intercalate_cons₂, itemBlock_eq]
      simp

/-- The last line of the intercalated item blocks is the last item's
name/subtotal line. -/
theorem intercalate_blocks_getLast :
    ∀ (ps : List (Product × ProductToReceipt)) (h : ps ≠ []),
      (List.intercalate [repChar '-' RECEIPT_SIZE]
          (ps.map fun pp => [specQtyLine pp, specNameLine pp])).getLast?
        = some (specNameLine (ps.getLast h)) := by
  intro ps
  induction ps with
  | nil => intro h; exact absurd rfl h
  | cons pp rest ih =>
    intro h
    cases rest with
    | nil => rfl
    | cons pp₂ rest₂ =>
      have h₂ : (pp₂ :: rest₂ : List (Product × ProductToReceipt)) ≠ [] := by simp
      rw [show (pp :: pp₂ :: rest₂).getLast h = (pp₂ :: rest₂).getLast h₂ from
        List.getLast_cons h₂]
      have ih' := ih h₂
      simp only [List.map_cons] at ih' ⊢
      rw [intercalate_cons₂, List.append_assoc,
        List.getLast?_append, List.getLast?_append, ih']
      rfl

/-- C5: for a non-empty item list the document is the header, then for
each item in input order the block of a quantity line padded to 32 and a
name/subtotal line (name left in width 20, subtotal right in width 12),
consecutive blocks separated by single `-`-rules with the rule after the
last block removed, then the totals block — so the line immediately
before the pre-totals `=`-rule is the last item's name/subtotal line. -/
theorem C5_item_blocks (r : Receipt) (ps : List (Product × ProductToReceipt))
    (h : ps ≠ []) :
    renderLines r ps =
      [ center RECEIPT_SIZE r.shop_name, repChar '=' RECEIPT_SIZE ]
        ++ List.intercalate [repChar '-' RECEIPT_SIZE]
            (ps.map fun pp => [specQtyLine pp, specNameLine pp])
        ++ [ repChar '=' RECEIPT_SIZE,
             "СУМА" ++ rjust (RECEIPT_SIZE - 4) (fmtCents (receiptTotal ps)),
             ljust (RECEIPT_SIZE - 22) r.payment_type.value
               ++ rjust 22 (fmtCents r.amount),
             "Решта" ++ rjust (RECEIPT_SIZE - 5) (fmtCents (r.amount - receiptTotal ps)),
             repChar '=' RECEIPT_SIZE,
             center RECEIPT_SIZE r.created_at.strftimeDmyHm,
             center RECEIPT_SIZE "Дякуємо за покупку!" ]
    ∧ (List.intercalate [repChar '-' RECEIPT_SIZE]
          (ps.map fun pp => [specQtyLine pp, specNameLine pp])).getLast?
        = some (specNameLine (ps.getLast h)) := by
  constructor
  · cases ps with
    | nil => exact absurd rfl h
    | cons pp rest =>
      unfold renderLines
      rw [List.dropLast_append_of_ne_nil _ (flatten_itemBlocks_ne_nil pp rest),
        blocks_dropLast_eq_intercalate (pp :: rest) (by simp)]
  · exact intercalate_blocks_getLast ps h

/-- Witness for C5: the reference document decomposes into header,
intercalated item blocks and totals block, and the line before the
pre-totals rule is the second item's name/subtotal line. -/
theorem C5_item_blocks_witness :
    (List.intercalate [repChar '-' RECEIPT_SIZE]
        (referenceProducts.map fun pp => [specQtyLine pp, specNameLine pp])).getLast?
      = some (specNameLine (referenceProducts.getLast (by decide))) :=
  (C5_item_blocks referenceReceipt referenceProducts (by decide)).2

/-- Receipt for the width counterexample: every field small and tidy. -/
def bigQuantityReceipt : Receipt :=
  { id := 3, user_id := 1,
    created_at := { year := 2023, month := 1, day := 1, hour := 12, minute := 0 },
    payment_type := .cash, amount := 10000, shop_name := "A" }

/-- A single free item sold a huge number of times: its subtotal `0.00`
fits the 12-character field, but its quantity line does not fit 32. -/
def bigQuantityProducts : List (Product × ProductToReceipt) :=
  [ ({ id := 3, name := "P", price := 0, quantity_type := .items },
     { product_id := 3, receipt_id := 3, count := 10 ^ 28 }) ]

/-- C9: a receipt satisfying every stated hypothesis — shop name within
32, product name within 20, subtotal within 12, total within 28, amount
within 22, rest within 27 — whose quantity line is 39 characters wide,
because the claim constrains neither the formatted quantity nor the unit
price of the `"<quantity> x <unitPrice>"` line. -/
theorem C9_quantity_line_overflow_cex :
    bigQuantityReceipt.shop_name.length ≤ 32
    ∧ ("P" : String).length ≤ 20
    ∧ (fmtCents ((0 : ℤ) * 10 ^ 28)).length ≤ 12
    ∧ (fmtCents (receiptTotal bigQuantityProducts)).length ≤ 28
    ∧ (fmtCents bigQuantityReceipt.amount).length ≤ 22
    ∧ (fmtCents (bigQuantityReceipt.amount - receiptTotal bigQuantityProducts)).length ≤ 27
    ∧ (renderLines bigQuantityReceipt bigQuantityProducts).map String.length
        = [32, 32, 39, 32, 32, 32, 32, 32, 32, 32, 32] := by
  decide

/-- C9 (amended: additionally each item's quantity-line content
`"<quantity %.2f> x <unitPrice %.2f>"` must fit 32 characters, and the
formatted timestamp fits the width — automatic for the source's
`datetime`, whose year is at most four digits): under these bounds every
line of the rendered document is exactly 32 characters long. -/
theorem C9_lines_width (r : Receipt) (ps : List (Product × ProductToReceipt))
    (hshop : r.shop_name.length ≤ 32)
    (hitems : ∀ pp ∈ ps, pp.1.name.length ≤ 20
      ∧ (fmtCents (pp.1.price * pp.2.count)).length ≤ 12
      ∧ (fmtCents (100 * pp.2.count) ++ " x " ++ fmtCents pp.1.price).length ≤ 32)
    (htotal : (fmtCents (receiptTotal ps)).length ≤ 28)
    (hamount : (fmtCents r.amount).length ≤ 22)
    (hrest : (fmtCents (r.amount - receiptTotal ps)).length ≤ 27)
    (hts : r.created_at.strftimeDmyHm.length ≤ 32)
    (line : String) (hline : line ∈ renderLines r ps) :
    line.length = 32 := by
  unfold renderLines at hline
  rcases List.mem_append.mp hline with hl | hl
  · have hl' := (List.dropLast_sublist _).subset hl
    rcases List.mem_append.mp hl' with hh | hh
    · simp only [List.mem_cons, List.not_mem_nil, or_false] at hh
      rcases hh with rfl | rfl
      · exact length_center 32 _ hshop
      · exact length_repChar '=' 32
    · rcases List.mem_flatten.mp hh with ⟨blk, hblk, hmem⟩
      rcases List.mem_map.mp hblk with ⟨pp, hpp, rfl⟩
      obtain ⟨hn, hs, hq⟩ := hitems pp hpp
      simp only [itemBlock, List.mem_cons, List.not_mem_nil, or_false] at hmem
      rcases hmem with rfl | rfl | rfl
      · exact length_ljust 32 _ hq
      · show (ljust 20 pp.1.name ++ rjust 12 (fmtCents (pp.1.price * pp.2.count))).length = 32
        rw [String.length_append, length_ljust 20 _ hn, length_rjust 12 _ hs]
      · exact length_repChar '-' 32
  · simp only [List.mem_cons, List.not_mem_nil, or_false] at hl
    rcases hl with rfl | rfl | rfl | rfl | rfl | rfl | rfl
    · exact length_repChar '=' 32
    · show ("СУМА" ++ rjust 28 (fmtCents (receiptTotal ps))).length = 32
      rw [String.length_append, length_rjust 28 _ htotal]
      decide
    · show (ljust 10 r.payment_type.value ++ rjust 22 (fmtCents r.amount)).length = 32
      rw [String.length_append, length_ljust 10 _ (paymentType_value_length _),
        length_rjust 22 _ hamount]
    · show ("Решта" ++ rjust 27 (fmtCents (r.amount - receiptTotal ps))).length = 32
      rw [String.length_append, length_rjust 27 _ hrest]
      decide
    · exact length_repChar '=' 32
    · exact length_center 32 _ hts
    · exact length_center 32 _ (by decide)

/-- Witness for C9 at the reference receipt: its hypotheses hold there
and the second item line of the document is 32 characters. -/
theorem C9_lines_width_witness :
    ("Test Product 1             51.00" : String).length = 32 :=
  C9_lines_width referenceReceipt referenceProducts (by decide) (by decide)
    (by decide) (by decide) (by decide) (by decide)
    "Test Product 1             51.00" (by decide)

end ReceiptsArchive
